import Mathlib

set_option maxRecDepth 2000

/-!
# Verification of the Ararat Designs backend services

Shallow embedding of the order, cart, review, analytics, CORS and
admin-update logic of the Ararat Designs e-commerce backend, together
with theorems settling the specification claims about them.

JavaScript numbers are idealised as rationals; `Number(x.toFixed(d))`
is modelled as decimal rounding with ties away from zero upwards
(the ECMAScript `toFixed` tie rule picks the larger candidate).
MongoDB documents are modelled as Lean structures and the update
operators used by the code are given their documented semantics.
-/

namespace Ararat

/-- Rounding to the nearest integer with ties upwards, as ECMAScript
`toFixed` does on exact decimal values (it picks the larger candidate
on a tie).  Written with `Rat.floor` so that it evaluates. -/
def jsRound (x : ℚ) : ℤ :=
  (x + 1 / 2).floor

/-- Model of `Number(x.toFixed(d))` on idealised (rational) JS numbers:
round `x` to `d` decimal places, ties upwards. -/
def toFixedNum (d : ℕ) (x : ℚ) : ℚ :=
  ((jsRound (x * (10 : ℚ) ^ d) : ℤ) : ℚ) / (10 : ℚ) ^ d

/-! ## CORS configuration (app files, `corsOptions`)

Both HTTP application assemblies declare the same `corsOptions.origin`
array; the list below is transcribed from that array. -/

/-- The `origin` array of `corsOptions` as it appears in both app files. -/
def corsAllowedOrigins : List String :=
  [ "http://localhost:5500"
  , "http://127.0.0.1:5500"
  , "http://127.0.0.1:5501"
  , "http://localhost:5501"
  , "https://arrarat-designs.onrender.com"
  ]

/-- An origin is allowed exactly when it appears in the configured
allow-list (the `cors` package matches list entries exactly). -/
def corsOriginAllowed (origin : String) : Bool :=
  corsAllowedOrigins.contains origin

/-- The allow-list as the specification states it (for comparison with
the one transcribed from the code). -/
def specCorsAllowList : List String :=
  [ "https://araratdesigns.org"
  , "https://www.araratdesigns.org"
  , "https://admin.araratdesigns.org"
  , "http://localhost:5500"
  , "http://127.0.0.1:5500"
  , "http://127.0.0.1:5501"
  , "http://localhost:5501"
  , "https://arrarat-designs.onrender.com"
  ]

/-! ## Admin update fallbacks (`adminUpdateProductService`, `adminUpdateAuthService`)

The update services assign `field = incoming || stored`, so a falsy
incoming value (absent, `0`, empty string, `false`) keeps the stored
value.  Incoming request fields are modelled as `Option` values
(`none` = absent from the JSON body). -/

/-- `stored = incoming || stored` for a numeric field: `0` is falsy. -/
def numFallback (incoming : Option ℚ) (stored : ℚ) : ℚ :=
  match incoming with
  | none => stored
  | some v => if v = 0 then stored else v

/-- `stored = incoming || stored` for a string field: `""` is falsy. -/
def strFallback (incoming : Option String) (stored : String) : String :=
  match incoming with
  | none => stored
  | some s => if s = "" then stored else s

/-- `stored = incoming || stored` for a boolean field: `false` is falsy. -/
def boolFallback (incoming : Option Bool) (stored : Bool) : Bool :=
  match incoming with
  | none => stored
  | some b => if b then b else stored

/-- The stored product fields touched by `adminUpdateProductService`. -/
structure ProductRecord where
  name : String
  price : ℚ
  description : String
  category : String
  stock : ℚ
  deriving Repr, DecidableEq

/-- The request body fields read by `adminUpdateProductService`. -/
structure ProductUpdateBody where
  name : Option String
  price : Option ℚ
  description : Option String
  category : Option String
  stock : Option ℚ
  deriving Repr, DecidableEq

/-- Field assignment block of `adminUpdateProductService`
(`product.price = price || product.price;` and friends). -/
def adminUpdateProduct (body : ProductUpdateBody) (p : ProductRecord) : ProductRecord :=
  { name := strFallback body.name p.name
  , price := numFallback body.price p.price
  , description := strFallback body.description p.description
  , category := strFallback body.category p.category
  , stock := numFallback body.stock p.stock
  }

/-- The stored user fields relevant to the falsy-fallback behaviour of
`adminUpdateAuthService` (text fields and `acceptTerms`). -/
structure UserRecord where
  name : String
  surname : String
  email : String
  bio : String
  address : String
  acceptTerms : Bool
  deriving Repr, DecidableEq

/-- The corresponding request body fields of `adminUpdateAuthService`. -/
structure UserUpdateBody where
  name : Option String
  surname : Option String
  email : Option String
  bio : Option String
  address : Option String
  acceptTerms : Option Bool
  deriving Repr, DecidableEq

/-- Field assignment block of `adminUpdateAuthService`
(`user.name = name || user.name;`, `user.acceptTerms = acceptTerms || user.acceptTerms;` ...). -/
def adminUpdateUser (body : UserUpdateBody) (u : UserRecord) : UserRecord :=
  { name := strFallback body.name u.name
  , surname := strFallback body.surname u.surname
  , email := strFallback body.email u.email
  , bio := strFallback body.bio u.bio
  , address := strFallback body.address u.address
  , acceptTerms := boolFallback body.acceptTerms u.acceptTerms
  }

/-! ## Analytics (`analytics.service.ts`)

Orders are modelled with the fields the aggregation pipelines read. -/

/-- The order fields read by the analytics aggregations. -/
structure AnOrder where
  orderStatus : String
  totalAmount : ℚ
  country : String
  deriving Repr, DecidableEq

/-- The two statuses the revenue `$match` stages treat as paid
(`orderStatus.paymentConfirmed`, `orderStatus.completed`). -/
def isPaidStatus (s : String) : Bool :=
  s == "payment_confirmed" || s == "completed"

/-- `$group` revenue accumulator: `{ $sum: "$totalAmount" }`. -/
def sumTotalAmount (orders : List AnOrder) : ℚ :=
  (orders.map (fun o => o.totalAmount)).sum

/-- Dashboard revenue aggregate of `getDashboardStatsService`: a
`$match` on the two paid statuses followed by `$sum: "$totalAmount"`
(an empty result yields `0` via `revenueResult[0]?.total || 0`, which
coincides with the empty sum). -/
def dashboardTotalRevenue (orders : List AnOrder) : ℚ :=
  sumTotalAmount (orders.filter (fun o => isPaidStatus o.orderStatus))

/-- Revenue of one location bucket in `getOrdersByLocationService`:
the pipeline groups ALL orders by `$toLower` of the location field and
sums `$totalAmount` — there is no `$match` on `orderStatus`. -/
def ordersByLocationRevenue (orders : List AnOrder) (key : String) : ℚ :=
  sumTotalAmount (orders.filter (fun o => o.country.toLower == key))

/-- Revenue of one status bucket in `getOrdersByStatusService`: the
pipeline groups ALL orders by `$orderStatus` and sums `$totalAmount` —
again with no status `$match`. -/
def ordersByStatusRevenue (orders : List AnOrder) (status : String) : ℚ :=
  sumTotalAmount (orders.filter (fun o => o.orderStatus == status))

/-- Raw month-over-month growth of `getDashboardStatsService`:
`last > 0 ? ((current - last) / last) * 100 : 0`. -/
def rawGrowth (current last : ℚ) : ℚ :=
  if last > 0 then (current - last) / last * 100 else 0

/-- Growth figure as reported in the response:
`Number(growth.toFixed(2))`. -/
def reportedGrowth (current last : ℚ) : ℚ :=
  toFixedNum 2 (rawGrowth current last)

/-- Reported `revenueGrowth`: paid revenue of the current month versus
paid revenue of the previous month. -/
def revenueGrowthReported (thisMonth lastMonth : List AnOrder) : ℚ :=
  reportedGrowth (dashboardTotalRevenue thisMonth) (dashboardTotalRevenue lastMonth)

/-- Reported `ordersGrowth`: order count (all statuses) of the current
month versus the previous month. -/
def ordersGrowthReported (thisMonth lastMonth : List AnOrder) : ℚ :=
  reportedGrowth (thisMonth.length : ℚ) (lastMonth.length : ℚ)

/-! ## Product reviews (`addReviewService`, `deleteReviewService`)

A review stores the reviewing user's id, display name, rating and
comment; the product carries the review list plus the derived
`ratings` / `numberOfReviews` fields.  User ids are modelled as
naturals. -/

/-- One entry of `product.reviews`. -/
structure Review where
  user : ℕ
  name : String
  rating : ℚ
  comment : String
  deriving Repr, DecidableEq

/-- The review-related fields of a Product document. -/
structure ProductReviewState where
  reviews : List Review
  ratings : ℚ
  numberOfReviews : ℕ
  deriving Repr, DecidableEq

/-- The accumulator of both services:
`reviews.reduce((acc, rev) => acc + Number(rev.rating || 0), 0) / reviews.length`.
On exact rationals `rev.rating || 0` is `rev.rating` (a zero rating is
already `0`), so the numerator is the plain sum. -/
def meanRating (reviews : List Review) : ℚ :=
  (reviews.map (fun r => r.rating)).sum / (reviews.length : ℚ)

/-- Core of `addReviewService` once the product has been found: if the
user already has a review, every entry of theirs gets its comment and
rating overwritten in place (`forEach`); otherwise the new review is
`unshift`ed and `numberOfReviews` is set to the new length.  In both
branches `ratings` becomes the mean rounded via `toFixed(1)`. -/
def addReview (uid : ℕ) (uname : String) (rating : ℚ) (comment : String)
    (p : ProductReviewState) : ProductReviewState :=
  let isAlreadyReview := p.reviews.any (fun r => r.user == uid)
  let reviews :=
    if isAlreadyReview then
      p.reviews.map (fun r =>
        if r.user == uid then { r with comment := comment, rating := rating } else r)
    else
      { user := uid, name := uname, rating := rating, comment := comment } :: p.reviews
  { reviews := reviews
  , numberOfReviews := if isAlreadyReview then p.numberOfReviews else reviews.length
  , ratings := toFixedNum 1 (meanRating reviews) }

/-- Core of `deleteReviewService` once the product has been found: a
user with no review is rejected with 403; otherwise their reviews are
filtered out and, if any remain, `ratings`/`numberOfReviews` are
recomputed from the survivors, else both fields are reset to zero. -/
def deleteReview (uid : ℕ) (p : ProductReviewState) : Except ℕ ProductReviewState :=
  let isAlreadyReview := p.reviews.any (fun r => r.user == uid)
  if !isAlreadyReview then
    Except.error 403
  else
    let filtered := p.reviews.filter (fun r => !(r.user == uid))
    if filtered.length ≠ 0 then
      Except.ok
        { reviews := filtered
        , ratings := toFixedNum 1 (meanRating filtered)
        , numberOfReviews := filtered.length }
    else
      Except.ok { reviews := [], ratings := 0, numberOfReviews := 0 }

/-- One call to either review service. -/
inductive ReviewOp where
  | add (uid : ℕ) (uname : String) (rating : ℚ) (comment : String)
  | del (uid : ℕ)
  deriving Repr, DecidableEq

/-- Effect of one service call on the stored product; a rejected
delete (403) leaves the stored product unchanged. -/
def applyReviewOp (p : ProductReviewState) (op : ReviewOp) : ProductReviewState :=
  match op with
  | ReviewOp.add uid uname rating comment => addReview uid uname rating comment p
  | ReviewOp.del uid =>
      match deleteReview uid p with
      | Except.ok q => q
      | Except.error _ => p

/-- Effect of a sequence of review service calls. -/
def runReviewOps (p : ProductReviewState) (ops : List ReviewOp) : ProductReviewState :=
  ops.foldl applyReviewOp p

/-- The derived-field invariant of the claim: `numberOfReviews` is the
length of `reviews`, and `ratings` is the mean rating rounded to one
decimal (zero when there are no reviews).  Reducible so that it can be
decided on concrete states. -/
abbrev reviewInvariant (p : ProductReviewState) : Prop :=
  p.numberOfReviews = p.reviews.length ∧
  p.ratings = (if p.reviews.isEmpty then 0 else toFixedNum 1 (meanRating p.reviews))

/-- A freshly created product: no reviews, zero aggregates (the model
defaults of the Product schema). -/
def freshProductReviews : ProductReviewState :=
  { reviews := [], ratings := 0, numberOfReviews := 0 }

/-! ## Order placement (`postOrderService`)

The monetary core of order placement: item selection, the per-item
pricing loop, and the `subTotal` / `totalAmount` computation.  The
shipping-info, address and name guards of the service only add further
error exits and never change the amounts of an order that is created,
so they are not modelled.  Product ids are naturals; the catalog is
the Product collection restricted to the fields the service reads. -/

/-- The product fields read during order placement. -/
structure ProductInfo where
  id : ℕ
  price : ℚ
  name : String
  deriving Repr, DecidableEq

/-- `Product.findById` over the catalog. -/
def findProduct (catalog : List ProductInfo) (pid : ℕ) : Option ProductInfo :=
  catalog.find? (fun pr => pr.id == pid)

/-- One requested line item: product id plus the optional `quantity`
field of the JSON body (`none` = absent). -/
structure ItemRequest where
  product : ℕ
  quantity : Option ℚ
  deriving Repr, DecidableEq

/-- One entry pushed onto `finalItemsToOrder`. -/
structure OrderItemSnap where
  product : ℕ
  quantity : ℚ
  unitPrice : ℚ
  nameSnapshot : String
  deriving Repr, DecidableEq

/-- The body fields of `postOrderService` that determine the amounts. -/
structure OrderBody where
  textAmount : Option ℚ
  shippingAmount : Option ℚ
  totalAmount : Option ℚ
  orderItems : Option (List ItemRequest)
  deriving Repr, DecidableEq

/-- The monetary outcome of a created order. -/
structure CreatedOrder where
  orderItems : List OrderItemSnap
  subTotal : ℚ
  totalAmount : ℚ
  deriving Repr, DecidableEq

/-- Effective quantity: `item.quantity || 1` — a missing or zero
quantity is coerced to `1` (`numFallback` is exactly the JS `||` on
numbers). -/
def effQty (q : Option ℚ) : ℚ :=
  numFallback q 1

/-- The per-item loop of `postOrderService`: look the product up (400
if missing), coerce the quantity via `item.quantity || 1`, reject a
quantity below 1 with 400, accumulate the line total into `subTotal`
and snapshot the live unit price and name. -/
def processItems (catalog : List ProductInfo) :
    List ItemRequest → Except ℕ (List OrderItemSnap × ℚ)
  | [] => Except.ok ([], 0)
  | item :: rest =>
    match findProduct catalog item.product with
    | none => Except.error 400
    | some productDoc =>
      let quantity := effQty item.quantity
      if quantity < 1 then Except.error 400
      else
        match processItems catalog rest with
        | Except.error e => Except.error e
        | Except.ok (snaps, sub) =>
          Except.ok
            ( { product := productDoc.id, quantity := quantity
              , unitPrice := productDoc.price, nameSnapshot := productDoc.name } :: snaps
            , productDoc.price * quantity + sub )

/-- Item-set selection of `postOrderService`: explicitly supplied
`orderItems` win when non-empty, else the user's cart lines. -/
def itemsChosen (body : OrderBody) (cart : List ItemRequest) : List ItemRequest :=
  let requestedItems := match body.orderItems with
    | some items => if items.length > 0 then items else []
    | none => []
  if requestedItems.length ≠ 0 then requestedItems else cart

/-- The amount computation of `postOrderService`: 402 on an empty item
set, per-item processing, then
`computedTotal = totalAmount || subTotal + shippingAmount + textAmount`
with `shippingAmount` and `textAmount` defaulting to `0` when absent
(`numFallback` is the JS `||`, so a supplied total of `0` falls back). -/
def postOrder (catalog : List ProductInfo) (body : OrderBody)
    (cart : List ItemRequest) : Except ℕ CreatedOrder :=
  let itemsToProcess := itemsChosen body cart
  if itemsToProcess.length = 0 then Except.error 402
  else
    match processItems catalog itemsToProcess with
    | Except.error e => Except.error e
    | Except.ok (snaps, subTotal) =>
      let shippingAmount := body.shippingAmount.getD 0
      let textAmount := body.textAmount.getD 0
      Except.ok
        { orderItems := snaps
        , subTotal := subTotal
        , totalAmount := numFallback body.totalAmount
            (subTotal + shippingAmount + textAmount) }

/-! ## Invoice-number uniqueness retry (`postOrderService`)

`gen 0` models the initial seedless `generateInvoiceNumber()` call and
`gen (k+1)` the k-th reseeded `generateInvoiceNumber(random)` call;
`existing c` models `await Invoice.exists({invoiceNumber: c})`.  In
the JS loop the current candidate always equals `gen attempts` (the
initial candidate at `attempts = 0`, and after each regeneration the
incremented counter matches the regeneration count), so the loop state
is just the attempt counter. -/

/-- The `while (await Invoice.exists({invoiceNumber}) && attempts < 10)`
loop, entered with counter `attempts`; returns the final
`(invoiceNumber, attempts)` pair. -/
def invoiceLoop (existing : ℕ → Bool) (gen : ℕ → ℕ) (attempts : ℕ) : ℕ × ℕ :=
  if existing (gen attempts) = true ∧ attempts < 10 then
    invoiceLoop existing gen (attempts + 1)
  else
    (gen attempts, attempts)
  termination_by 10 - attempts
  decreasing_by omega

/-- The retry block: run the loop from `attempts = 0`, then fail with
500 when `attempts >= 10`, else use the final candidate. -/
def generateUniqueInvoice (existing : ℕ → Bool) (gen : ℕ → ℕ) : Except ℕ ℕ :=
  let r := invoiceLoop existing gen 0
  if 10 ≤ r.2 then Except.error 500 else Except.ok r.1

/-! ## Cart decrease (`addProductToCartService`, `decrease=true` path)

Cart lines live in the `cart.items` array of the User document.  The
decrease path issues two `findOneAndUpdate` calls whose filters place
two conditions on the same array (`cart.items.productId` and
`cart.items.quantity`) WITHOUT `$elemMatch`; MongoDB therefore matches
the document when each condition is satisfied by SOME array element,
not necessarily the same one, and the positional `$` update targets
the first element matched by the last array condition of the filter
(the quantity condition). -/

/-- One embedded cart line. -/
structure CartLine where
  productId : ℕ
  quantity : ℤ
  deriving Repr, DecidableEq

/-- Apply `f` to the element at the given index (identity when out of
range) — the effect of a positional `$` update. -/
def modifyAt (f : CartLine → CartLine) : ℕ → List CartLine → List CartLine
  | _, [] => []
  | 0, x :: xs => f x :: xs
  | n + 1, x :: xs => x :: modifyAt f n xs

/-- The `decrease=true` path: first `findOneAndUpdate` matches when
some line has the product id AND some line has quantity > 1, and then
`$inc`-decrements the first line with quantity > 1 (positional `$`
from the last array condition); the second matches when some line has
the product id AND some line has quantity 1, and `$pull`s every line
with the product id; otherwise 404 `Product not found in cart`. -/
def decreaseCart (pid : ℕ) (cart : List CartLine) : Except ℕ (List CartLine) :=
  if (cart.any fun l => l.productId == pid) = true ∧
      (cart.any fun l => decide (1 < l.quantity)) = true then
    Except.ok (modifyAt (fun l => { l with quantity := l.quantity - 1 })
      (cart.findIdx fun l => decide (1 < l.quantity)) cart)
  else if (cart.any fun l => l.productId == pid) = true ∧
      (cart.any fun l => l.quantity == 1) = true then
    Except.ok (cart.filter fun l => !(l.productId == pid))
  else
    Except.error 404

/-! ## Cart mutation retry loop (`addProductToCartService`)

The whole mutation sits in `while (retries < MAX_RETRIES)` with
`MAX_RETRIES = 3`.  `outcome n` abstracts the n-th execution of the
try block: it succeeds, throws a detected optimistic-concurrency
conflict, or throws some other error.  The loop is written with an
explicit fuel argument equal to `3 - retries`, which makes the guard
`retries < 3` structural. -/

/-- Outcome of one execution of the try block. -/
inductive AttemptOutcome where
  | success
  | conflict
  | otherError
  deriving Repr, DecidableEq

/-- How the service call ends. -/
inductive CartMutationResult where
  | ok
  | conflict409
  | error
  | unreachable500
  deriving Repr, DecidableEq

/-- Observable trace of the retry loop: the final result, the
`setTimeout` waits performed (in ms, chronological), and how many
times the try block ran. -/
structure RetryTrace where
  result : CartMutationResult
  delays : List ℕ
  attempts : ℕ
  deriving Repr, DecidableEq

/-- The loop body: on success or a non-conflict error the service
returns at once; on a conflict `retries` is incremented, the 409 is
raised when `retries >= MAX_RETRIES`, and otherwise the code waits
`100 * retries` ms and retries.  `fuel = 3 - retries` throughout, so
`fuel = 0` is the (unreachable) loop exit that returns the 500. -/
def cartRetryAux (outcome : ℕ → AttemptOutcome) :
    ℕ → ℕ → List ℕ → RetryTrace
  | 0, retries, delays =>
      { result := CartMutationResult.unreachable500
      , delays := delays, attempts := retries }
  | fuel + 1, retries, delays =>
    match outcome retries with
    | AttemptOutcome.success =>
        { result := CartMutationResult.ok, delays := delays, attempts := retries + 1 }
    | AttemptOutcome.otherError =>
        { result := CartMutationResult.error, delays := delays, attempts := retries + 1 }
    | AttemptOutcome.conflict =>
        if 3 ≤ retries + 1 then
          { result := CartMutationResult.conflict409
          , delays := delays, attempts := retries + 1 }
        else
          cartRetryAux outcome fuel (retries + 1) (delays ++ [100 * (retries + 1)])

/-- The whole retry loop, started at `retries = 0`. -/
def cartRetryLoop (outcome : ℕ → AttemptOutcome) : RetryTrace :=
  cartRetryAux outcome 3 0 []

/-! ## Concrete fixtures used by witness statements -/

/-- Catalog for the order-placement witnesses (the specification's
worked example: prices 1000 and 500). -/
def specCatalog : List ProductInfo :=
  [ { id := 1, price := 1000, name := "Lamp" }
  , { id := 2, price := 500, name := "Vase" }
  ]

/-- Order body of the worked example: `shippingAmount = 200`,
`textAmount = 0`, no explicit total, no explicit items. -/
def specBody : OrderBody :=
  { textAmount := some 0, shippingAmount := some 200
  , totalAmount := none, orderItems := none }

/-- Cart of the worked example: two of product 1, one of product 2. -/
def specCart : List ItemRequest :=
  [ { product := 1, quantity := some 2 }
  , { product := 2, quantity := some 1 }
  ]

/-- The order the worked example creates. -/
def specOrder : CreatedOrder :=
  { orderItems :=
      [ { product := 1, quantity := 2, unitPrice := 1000, nameSnapshot := "Lamp" }
      , { product := 2, quantity := 1, unitPrice := 500, nameSnapshot := "Vase" }
      ]
  , subTotal := 2500
  , totalAmount := 2700 }

/-- Order body exhibiting the falsy coercions: quantity `0` for the
500-priced product and an explicit `totalAmount` of `0`. -/
def falsyOrderBody : OrderBody :=
  { textAmount := none, shippingAmount := some 200
  , totalAmount := some 0
  , orderItems := some [ { product := 2, quantity := some 0 } ] }

/-- The product state after the three reviews of the specification's
example (`ratings [4, 5, 3]` from users 1, 2, 3). -/
def threeReviewProduct : ProductReviewState :=
  runReviewOps freshProductReviews
    [ ReviewOp.add 1 "A" 4 "good"
    , ReviewOp.add 2 "B" 5 "great"
    , ReviewOp.add 3 "C" 3 "fine"
    ]

/-- A stored product used in witnesses. -/
def sampleProduct : ProductRecord :=
  { name := "Chair", price := 1000, description := "Oak chair"
  , category := "furniture", stock := 7 }

/-- An update body supplying falsy price and stock. -/
def zeroUpdateBody : ProductUpdateBody :=
  { name := none, price := some 0, description := none
  , category := none, stock := some 0 }

/-- A stored user used in witnesses. -/
def sampleUser : UserRecord :=
  { name := "Ada", surname := "Obi", email := "ada@example.com"
  , bio := "hello", address := "Lagos", acceptTerms := true }

/-- An update body supplying falsy text fields and `acceptTerms`. -/
def falsyUserBody : UserUpdateBody :=
  { name := some "", surname := none, email := none
  , bio := some "", address := none, acceptTerms := some false }

/-- A paid (payment_confirmed) order with the given amount. -/
def paidOrder (amount : ℚ) : AnOrder :=
  { orderStatus := "payment_confirmed", totalAmount := amount, country := "Nigeria" }

/-- An order still awaiting payment with the given amount. -/
def awaitingOrder (amount : ℚ) : AnOrder :=
  { orderStatus := "awaiting_payment", totalAmount := amount, country := "Nigeria" }

end Ararat

namespace Ararat

/-! # Theorems -/

/-- `jsRound` agrees with Mathlib's round-half-up. -/
theorem jsRound_eq_round (x : ℚ) : jsRound x = round x := by
  rw [jsRound, round_eq, Rat.floor_def', Rat.floor_def]

/-- Rounding zero to any number of decimals gives zero. -/
theorem toFixedNum_zero (d : ℕ) : toFixedNum d 0 = 0 := by
  simp [toFixedNum, jsRound_eq_round]

/-- Adding a review yields a state satisfying the derived-field
invariant, provided the input state satisfied it. -/
theorem addReview_invariant (uid : ℕ) (uname : String) (rating : ℚ) (comment : String)
    (p : ProductReviewState) (h : reviewInvariant p) :
    reviewInvariant (addReview uid uname rating comment p) := by
  obtain ⟨hn, -⟩ := h
  unfold addReview
  dsimp only
  by_cases hmem : p.reviews.any (fun r => r.user == uid) = true
  · have hne : p.reviews ≠ [] := by
      intro hnil
      rw [hnil] at hmem
      simp at hmem
    rw [if_pos hmem, if_pos hmem]
    constructor
    · simp [hn]
    · simp [List.map_eq_nil_iff, hne]
  · rw [if_neg hmem, if_neg hmem]
    constructor
    · rfl
    · simp

/-- A successful review deletion yields a state satisfying the
derived-field invariant. -/
theorem deleteReview_invariant (uid : ℕ) (p q : ProductReviewState)
    (h : deleteReview uid p = Except.ok q) : reviewInvariant q := by
  simp only [deleteReview] at h
  by_cases hmem : p.reviews.any (fun r => r.user == uid) = true
  · simp only [hmem, Bool.not_true, Bool.false_eq_true, if_false] at h
    by_cases hlen : (p.reviews.filter (fun r => !(r.user == uid))).length ≠ 0
    · rw [if_pos hlen] at h
      cases h
      constructor
      · rfl
      · cases hf : p.reviews.filter (fun r => !(r.user == uid)) with
        | nil => rw [hf] at hlen; simp at hlen
        | cons b bs => simp [hf]
    · rw [if_neg hlen] at h
      cases h
      constructor
      · rfl
      · simp
  · simp [hmem] at h

/-- One review-service call preserves the derived-field invariant. -/
theorem applyReviewOp_invariant (p : ProductReviewState) (op : ReviewOp)
    (h : reviewInvariant p) : reviewInvariant (applyReviewOp p op) := by
  cases op with
  | add uid uname rating comment => exact addReview_invariant uid uname rating comment p h
  | del uid =>
      simp only [applyReviewOp]
      cases hd : deleteReview uid p with
      | ok q => exact deleteReview_invariant uid p q hd
      | error e => exact h

/-- Any sequence of review-service calls preserves the derived-field
invariant. -/
theorem runReviewOps_invariant (ops : List ReviewOp) (p : ProductReviewState)
    (h : reviewInvariant p) : reviewInvariant (runReviewOps p ops) := by
  induction ops generalizing p with
  | nil => exact h
  | cons op rest ih =>
      have hstep := applyReviewOp_invariant p op h
      simpa [runReviewOps, List.foldl_cons] using ih (applyReviewOp p op) hstep

/-- C2: after any sequence of review-service calls on a product whose
derived fields are consistent (as a fresh product's are), `ratings` is
the one-decimal-rounded mean of the current reviews (zero when none
remain) and `numberOfReviews` is the review count; and a resubmission
by a user who already has a review overwrites that review's rating and
comment in place — the review count does not grow, every entry of that
user carries the new rating and comment, and other users' entries are
untouched. -/
theorem review_aggregates_correct (p : ProductReviewState) (h : reviewInvariant p)
    (ops : List ReviewOp) (uid : ℕ) (uname : String) (rating : ℚ) (comment : String)
    (hdup : p.reviews.any (fun r => r.user == uid) = true) :
    reviewInvariant (runReviewOps p ops) ∧
    (addReview uid uname rating comment p).reviews.length = p.reviews.length ∧
    (addReview uid uname rating comment p).numberOfReviews = p.numberOfReviews ∧
    ∀ r ∈ (addReview uid uname rating comment p).reviews,
      (r.user = uid → r.rating = rating ∧ r.comment = comment) ∧
      (r.user ≠ uid → r ∈ p.reviews) := by
  refine ⟨runReviewOps_invariant ops p h, ?_, ?_, ?_⟩
  · simp [addReview, hdup]
  · simp [addReview, hdup]
  · intro r hr
    simp only [addReview, hdup, if_true] at hr
    rw [List.mem_map] at hr
    obtain ⟨a, ha, rfl⟩ := hr
    by_cases hu : a.user = uid
    · simp [hu]
    · simp [hu, ha]

/-- Witness for C2: the three-review fixture satisfies the invariant
(its `ratings` is `4.0`, `numberOfReviews` is `3`), deleting user 2's
review keeps the invariant, and user 1 resubmitting leaves the review
count at 3. -/
theorem review_aggregates_correct_witness :
    reviewInvariant threeReviewProduct ∧
    threeReviewProduct.ratings = 4 ∧
    threeReviewProduct.numberOfReviews = 3 ∧
    reviewInvariant (runReviewOps threeReviewProduct [ReviewOp.del 2]) ∧
    (addReview 1 "A" 1 "changed" threeReviewProduct).reviews.length =
      threeReviewProduct.reviews.length := by
  have h := review_aggregates_correct threeReviewProduct
    (by with_unfolding_all decide) [ReviewOp.del 2] 1 "A" 1 "changed"
    (by with_unfolding_all decide)
  exact ⟨by with_unfolding_all decide, by with_unfolding_all decide,
    by with_unfolding_all decide, h.1, h.2.1⟩

/-- C8: the HTTP application's CORS allow-list is NOT the eight-origin
set of the claim: the three production `araratdesigns.org` origins are
absent from the configured list (which the repository's own
PRODUCTION_URLS.md documents as allowed), while the five development /
legacy origins are present. -/
theorem corsAllowList_missing_production_origins :
    corsOriginAllowed "https://araratdesigns.org" = false ∧
    corsOriginAllowed "https://www.araratdesigns.org" = false ∧
    corsOriginAllowed "https://admin.araratdesigns.org" = false ∧
    corsOriginAllowed "http://localhost:5500" = true ∧
    corsOriginAllowed "http://127.0.0.1:5500" = true ∧
    corsOriginAllowed "http://127.0.0.1:5501" = true ∧
    corsOriginAllowed "http://localhost:5501" = true ∧
    corsOriginAllowed "https://arrarat-designs.onrender.com" = true ∧
    corsAllowedOrigins ≠ specCorsAllowList := by
  refine ⟨?_, ?_, ?_, ?_, ?_, ?_, ?_, ?_, ?_⟩ <;> decide

/-- C9: in the admin update services a falsy field value keeps the
stored value: supplying `price = 0` or `stock = 0` to
`adminUpdateProductService` is the same as omitting the field (so the
endpoint can never set a non-zero stock to `0`), and supplying an empty
string for a text field or `acceptTerms = false` to
`adminUpdateAuthService` is likewise the same as omitting it. -/
theorem adminUpdate_falsy_is_omitted (pb : ProductUpdateBody) (p : ProductRecord)
    (ub : UserUpdateBody) (u : UserRecord) :
    (pb.price = some 0 →
      adminUpdateProduct pb p = adminUpdateProduct { pb with price := none } p) ∧
    (pb.stock = some 0 →
      adminUpdateProduct pb p = adminUpdateProduct { pb with stock := none } p) ∧
    (pb.price = some 0 → (adminUpdateProduct pb p).price = p.price) ∧
    (pb.stock = some 0 → (adminUpdateProduct pb p).stock = p.stock) ∧
    ((adminUpdateProduct pb p).stock = 0 → p.stock = 0) ∧
    (ub.name = some "" →
      adminUpdateUser ub u = adminUpdateUser { ub with name := none } u) ∧
    (ub.bio = some "" → (adminUpdateUser ub u).bio = u.bio) ∧
    (ub.acceptTerms = some false →
      (adminUpdateUser ub u).acceptTerms = u.acceptTerms) := by
  refine ⟨?_, ?_, ?_, ?_, ?_, ?_, ?_, ?_⟩
  · intro h; simp [adminUpdateProduct, numFallback, h]
  · intro h; simp [adminUpdateProduct, numFallback, h]
  · intro h; simp [adminUpdateProduct, numFallback, h]
  · intro h; simp [adminUpdateProduct, numFallback, h]
  · intro h
    rcases hs : pb.stock with _ | v
    · simpa [adminUpdateProduct, numFallback, hs] using h
    · by_cases hv : v = 0
      · simpa [adminUpdateProduct, numFallback, hs, hv] using h
      · exact absurd h (by simp [adminUpdateProduct, numFallback, hs, hv])
  · intro h; simp [adminUpdateUser, strFallback, h]
  · intro h; simp [adminUpdateUser, strFallback, h]
  · intro h; simp [adminUpdateUser, boolFallback, h]

/-- Witness for C9: concrete falsy update bodies leave the sample
product's price/stock and the sample user's fields unchanged. -/
theorem adminUpdate_falsy_is_omitted_witness :
    zeroUpdateBody.price = some 0 ∧
    (adminUpdateProduct zeroUpdateBody sampleProduct).price = sampleProduct.price ∧
    (adminUpdateProduct zeroUpdateBody sampleProduct).stock = sampleProduct.stock ∧
    (adminUpdateUser falsyUserBody sampleUser).bio = sampleUser.bio ∧
    (adminUpdateUser falsyUserBody sampleUser).acceptTerms = sampleUser.acceptTerms := by
  have h := adminUpdate_falsy_is_omitted zeroUpdateBody sampleProduct falsyUserBody sampleUser
  exact ⟨rfl, h.2.2.1 rfl, h.2.2.2.1 rfl, h.2.2.2.2.2.2.1 rfl, h.2.2.2.2.2.2.2 rfl⟩

/-- C7: month-over-month growth in the dashboard stats equals
`((this − last) / last) · 100` rounded to two decimals when the
previous month's baseline is positive, and is exactly `0` when the
baseline is zero — for revenue (paid orders only) and order counts
alike. -/
theorem dashboard_growth_formula (thisM lastM : List AnOrder) :
    (0 < dashboardTotalRevenue lastM →
      revenueGrowthReported thisM lastM =
        toFixedNum 2 ((dashboardTotalRevenue thisM - dashboardTotalRevenue lastM)
          / dashboardTotalRevenue lastM * 100)) ∧
    (dashboardTotalRevenue lastM = 0 → revenueGrowthReported thisM lastM = 0) ∧
    (0 < lastM.length →
      ordersGrowthReported thisM lastM =
        toFixedNum 2 (((thisM.length : ℚ) - (lastM.length : ℚ))
          / (lastM.length : ℚ) * 100)) ∧
    (lastM.length = 0 → ordersGrowthReported thisM lastM = 0) := by
  refine ⟨?_, ?_, ?_, ?_⟩
  · intro h
    simp [revenueGrowthReported, reportedGrowth, rawGrowth, h]
  · intro h
    simp [revenueGrowthReported, reportedGrowth, rawGrowth, h, toFixedNum_zero]
  · intro h
    have hq : (0 : ℚ) < (lastM.length : ℚ) := by exact_mod_cast h
    simp [ordersGrowthReported, reportedGrowth, rawGrowth, hq]
  · intro h
    simp [ordersGrowthReported, reportedGrowth, rawGrowth, h, toFixedNum_zero]

/-- C6 counterexample: a single `awaiting_payment` order of amount 100
is excluded from the dashboard revenue total, yet fully counted in the
orders-by-location revenue for its (lower-cased) country and in the
orders-by-status revenue for its status — those two pipelines have no
status filter. -/
theorem analytics_unpaid_in_breakdowns :
    dashboardTotalRevenue [awaitingOrder 100] = 0 ∧
    ordersByLocationRevenue [awaitingOrder 100] "nigeria" = 100 ∧
    ordersByStatusRevenue [awaitingOrder 100] "awaiting_payment" = 100 := by
  refine ⟨?_, ?_, ?_⟩ <;> with_unfolding_all decide

/-- C6 (amended): the dashboard revenue total counts only
`payment_confirmed` / `completed` orders — adding an order in any
other status leaves it unchanged — while the orders-by-location and
orders-by-status aggregations count every order regardless of status:
the same added order contributes its full `totalAmount` to its
location bucket and to its status bucket. -/
theorem analytics_revenue_status_scope (orders : List AnOrder) (o : AnOrder)
    (h : isPaidStatus o.orderStatus = false) :
    dashboardTotalRevenue (o :: orders) = dashboardTotalRevenue orders ∧
    ordersByLocationRevenue (o :: orders) o.country.toLower =
      o.totalAmount + ordersByLocationRevenue orders o.country.toLower ∧
    ordersByStatusRevenue (o :: orders) o.orderStatus =
      o.totalAmount + ordersByStatusRevenue orders o.orderStatus := by
  refine ⟨?_, ?_, ?_⟩
  · simp [dashboardTotalRevenue, sumTotalAmount, List.filter_cons, h]
  · simp [ordersByLocationRevenue, sumTotalAmount, List.filter_cons]
  · simp [ordersByStatusRevenue, sumTotalAmount, List.filter_cons]

/-- Witness for C6 (amended): the awaiting-payment order of amount 100
put in front of an empty collection adds nothing to the dashboard
total but adds 100 to its location and status buckets. -/
theorem analytics_revenue_status_scope_witness :
    isPaidStatus (awaitingOrder 100).orderStatus = false ∧
    dashboardTotalRevenue [awaitingOrder 100] = dashboardTotalRevenue [] ∧
    ordersByLocationRevenue [awaitingOrder 100] (awaitingOrder 100).country.toLower =
      100 + ordersByLocationRevenue [] (awaitingOrder 100).country.toLower ∧
    ordersByStatusRevenue [awaitingOrder 100] (awaitingOrder 100).orderStatus =
      100 + ordersByStatusRevenue [] (awaitingOrder 100).orderStatus := by
  have h := analytics_revenue_status_scope [] (awaitingOrder 100)
    (by with_unfolding_all decide)
  exact ⟨by with_unfolding_all decide, h.1, h.2.1, h.2.2⟩

/-- C4: evaluation of the decrease path at the failing input — a cart
holding product 1 at quantity 1 and product 2 at quantity 3, with a
decrease request for product 1.  The claim demands that product 1's
line be removed (quantity was exactly 1); instead the decrement
filter matches the document (product 1 is present somewhere and
quantity > 1 holds somewhere), so the `$pull` never runs: product 1's
line survives and the positional `$inc` lands on product 2's line.
Under either resolution of the positional index (first line matching
the quantity condition, as modelled, or first line matching the
product condition) the qty-1 line is never removed, because the
decrement branch already matched. -/
theorem decreaseCart_qty1_line_not_removed :
    decreaseCart 1 [CartLine.mk 1 1, CartLine.mk 2 3] =
      Except.ok [CartLine.mk 1 1, CartLine.mk 2 2] ∧
    CartLine.mk 1 1 ∈ [CartLine.mk 1 1, CartLine.mk 2 2] := by
  exact ⟨rfl, by decide⟩

/-- C5 counterexample: when every attempt hits a conflict the loop
performs exactly two waits — 100ms then 200ms — before raising the
409; no 300ms wait ever happens, because after the third conflicting
attempt the 409 is raised before the backoff branch. -/
theorem cartRetry_no_300ms_wait :
    cartRetryLoop (fun _ => AttemptOutcome.conflict) =
      { result := CartMutationResult.conflict409
      , delays := [100, 200], attempts := 3 } ∧
    [100, 200] ≠ [100, 200, 300] := by
  exact ⟨rfl, by decide⟩

/-- C5 (amended): the cart mutation runs at most 3 attempts and
re-attempts only on a detected optimistic-concurrency conflict; after
the n-th conflicting attempt it waits 100·n ms, so the waits are 100ms
and then 200ms (never 300ms); three conflicting attempts end in the
409 with no further wait, and a non-conflict outcome ends the loop at
once. -/
theorem cartRetry_bounded_backoff (outcome : ℕ → AttemptOutcome) :
    ((∀ i, i < 3 → outcome i = AttemptOutcome.conflict) →
      cartRetryLoop outcome =
        { result := CartMutationResult.conflict409
        , delays := [100, 200], attempts := 3 }) ∧
    (∀ i, i < 3 → outcome i ≠ AttemptOutcome.conflict →
      (∀ j, j < i → outcome j = AttemptOutcome.conflict) →
      cartRetryLoop outcome =
        { result := if outcome i = AttemptOutcome.success then CartMutationResult.ok
            else CartMutationResult.error
        , delays := (List.range i).map (fun n => 100 * (n + 1))
        , attempts := i + 1 }) := by
  constructor
  · intro hall
    have h0 := hall 0 (by omega)
    have h1 := hall 1 (by omega)
    have h2 := hall 2 (by omega)
    simp [cartRetryLoop, cartRetryAux, h0, h1, h2]
  · intro i hi hnc hprev
    interval_cases i
    · cases ho : outcome 0 with
      | conflict => exact absurd ho hnc
      | success => simp [cartRetryLoop, cartRetryAux, ho]
      | otherError => simp [cartRetryLoop, cartRetryAux, ho]
    · have h0 := hprev 0 (by omega)
      cases ho : outcome 1 with
      | conflict => exact absurd ho hnc
      | success => simp [cartRetryLoop, cartRetryAux, h0, ho, List.range_succ]
      | otherError => simp [cartRetryLoop, cartRetryAux, h0, ho, List.range_succ]
    · have h0 := hprev 0 (by omega)
      have h1 := hprev 1 (by omega)
      cases ho : outcome 2 with
      | conflict => exact absurd ho hnc
      | success => simp [cartRetryLoop, cartRetryAux, h0, h1, ho, List.range_succ]
      | otherError => simp [cartRetryLoop, cartRetryAux, h0, h1, ho, List.range_succ]

/-- Witness for C5 (amended): a conflict followed by a success gives a
successful mutation after one 100ms wait and two attempts; constant
conflicts give the 409 after waits of 100ms and 200ms. -/
theorem cartRetry_bounded_backoff_witness :
    cartRetryLoop (fun i => if i = 1 then AttemptOutcome.success else AttemptOutcome.conflict) =
      { result := CartMutationResult.ok, delays := [100], attempts := 2 } ∧
    cartRetryLoop (fun _ => AttemptOutcome.conflict) =
      { result := CartMutationResult.conflict409, delays := [100, 200], attempts := 3 } := by
  have h1 := cartRetry_bounded_backoff
    (fun i => if i = 1 then AttemptOutcome.success else AttemptOutcome.conflict)
  have h2 := cartRetry_bounded_backoff (fun _ => AttemptOutcome.conflict)
  constructor
  · have hres := h1.2 1 (by decide) (by decide) (by decide)
    simpa using hres
  · exact h2.1 (fun i hi => rfl)

/-- Helper: when every candidate from index `a` up to 9 collides, the
loop runs the counter to 10 and exits holding the (never-checked)
candidate `gen 10`. -/
theorem invoiceLoop_all_collide (existing : ℕ → Bool) (gen : ℕ → ℕ) :
    ∀ k a, a + k = 10 → (∀ i, a ≤ i → i < 10 → existing (gen i) = true) →
    invoiceLoop existing gen a = (gen 10, 10) := by
  intro k
  induction k with
  | zero =>
      intro a ha hall
      have h10 : a = 10 := by omega
      subst h10
      unfold invoiceLoop
      simp
  | succ n ih =>
      intro a ha hall
      have ha10 : a < 10 := by omega
      unfold invoiceLoop
      rw [if_pos ⟨hall a le_rfl ha10, ha10⟩]
      exact ih (a + 1) (by omega) (fun i hi hi10 => hall i (by omega) hi10)

/-- Helper: the loop stops at the first fresh candidate at or after its
start index, provided that candidate's index is below 10. -/
theorem invoiceLoop_first_fresh (existing : ℕ → Bool) (gen : ℕ → ℕ) :
    ∀ k a i, a + k = 10 → a ≤ i → i < 10 → existing (gen i) = false →
    (∀ j, a ≤ j → j < i → existing (gen j) = true) →
    invoiceLoop existing gen a = (gen i, i) := by
  intro k
  induction k with
  | zero =>
      intro a i ha hai hi10 _ _
      omega
  | succ n ih =>
      intro a i ha hai hi10 hfresh hcoll
      rcases eq_or_lt_of_le hai with rfl | hlt
      · unfold invoiceLoop
        rw [if_neg (by simp [hfresh])]
      · unfold invoiceLoop
        rw [if_pos ⟨hcoll a le_rfl hlt, by omega⟩]
        exact ih (a + 1) i (by omega) (by omega) hi10 hfresh
          (fun j hj hji => hcoll j (by omega) hji)

/-- Helper: the retry block accepts the first fresh candidate among
the ten that are checked. -/
theorem generateUniqueInvoice_ok (existing : ℕ → Bool) (gen : ℕ → ℕ)
    (i : ℕ) (hi : i < 10) (hfresh : existing (gen i) = false)
    (hcoll : ∀ j, j < i → existing (gen j) = true) :
    generateUniqueInvoice existing gen = Except.ok (gen i) := by
  have hloop := invoiceLoop_first_fresh existing gen 10 0 i (by omega)
    (Nat.zero_le i) hi hfresh (fun j hj hji => hcoll j hji)
  simp only [generateUniqueInvoice, hloop]
  rw [if_neg (by omega)]

/-- Helper: the retry block fails with 500 when each of the ten checked
candidates collides. -/
theorem generateUniqueInvoice_error (existing : ℕ → Bool) (gen : ℕ → ℕ)
    (hall : ∀ i, i < 10 → existing (gen i) = true) :
    generateUniqueInvoice existing gen = Except.error 500 := by
  have hloop := invoiceLoop_all_collide existing gen 10 0 (by omega)
    (fun i hi hi10 => hall i hi10)
  simp only [generateUniqueInvoice, hloop]
  rw [if_pos (by omega)]

/-- C3: invoice-number generation checks up to 10 candidates against
the existing Invoice records, stops at the first fresh one and uses it
for the invoice; it fails with the 500
`Failed to generate unique invoice number` if and only if all 10
checked candidates collide.  (When the 10th check collides an 11th
candidate is generated but never checked or used.) -/
theorem invoice_retry_behaviour (existing : ℕ → Bool) (gen : ℕ → ℕ) :
    (generateUniqueInvoice existing gen = Except.error 500 ↔
      ∀ i, i < 10 → existing (gen i) = true) ∧
    (∀ i, i < 10 → existing (gen i) = false →
      (∀ j, j < i → existing (gen j) = true) →
      generateUniqueInvoice existing gen = Except.ok (gen i)) := by
  constructor
  · constructor
    · intro herr
      by_contra hnot
      push_neg at hnot
      obtain ⟨i, hi, hne⟩ := hnot
      have hP : ∃ j, j < 10 ∧ existing (gen j) = false := by
        refine ⟨i, hi, ?_⟩
        cases h : existing (gen i) with
        | false => rfl
        | true => exact absurd h hne
      have hspec := Nat.find_spec hP
      have hok := generateUniqueInvoice_ok existing gen (Nat.find hP)
        hspec.1 hspec.2 (fun j hj => by
          have hmin := Nat.find_min hP hj
          cases h : existing (gen j) with
          | true => rfl
          | false => exact absurd ⟨by omega, h⟩ hmin)
      rw [hok] at herr
      exact Except.noConfusion herr
    · exact generateUniqueInvoice_error existing gen
  · exact generateUniqueInvoice_ok existing gen

/-- Witness for C3: with the first three candidates colliding, the
fourth (index 3) is accepted and used; with every candidate colliding
the 500 is raised. -/
theorem invoice_retry_behaviour_witness :
    generateUniqueInvoice (fun c => decide (c < 3)) (fun i => i) = Except.ok 3 ∧
    generateUniqueInvoice (fun _ => true) (fun i => i) = Except.error 500 := by
  have h1 := invoice_retry_behaviour (fun c => decide (c < 3)) (fun i => i)
  have h2 := invoice_retry_behaviour (fun _ => true) (fun i => i)
  constructor
  · exact h1.2 3 (by decide) (by decide) (fun j hj => decide_eq_true hj)
  · exact h2.1.mpr (fun i hi => rfl)

/-- Helper: a successful run of the pricing loop returns a subtotal
equal to the sum of unit price × effective quantity over the
snapshots, and the snapshots pair up with the requested items: each
carries the live catalog price and name of its product and the
`quantity || 1` effective quantity. -/
theorem processItems_ok (catalog : List ProductInfo) :
    ∀ items snaps sub, processItems catalog items = Except.ok (snaps, sub) →
    sub = (snaps.map (fun s => s.unitPrice * s.quantity)).sum ∧
    List.Forall₂ (fun (item : ItemRequest) (s : OrderItemSnap) =>
      ∃ pr, findProduct catalog item.product = some pr ∧
        s = { product := pr.id, quantity := effQty item.quantity
            , unitPrice := pr.price, nameSnapshot := pr.name }) items snaps := by
  intro items
  induction items with
  | nil =>
      intro snaps sub h
      simp only [processItems, Except.ok.injEq, Prod.mk.injEq] at h
      obtain ⟨rfl, rfl⟩ := h
      simp
  | cons item rest ih =>
      intro snaps sub h
      simp only [processItems] at h
      cases hf : findProduct catalog item.product with
      | none => rw [hf] at h; exact absurd h (by simp)
      | some pr =>
          rw [hf] at h
          dsimp only at h
          by_cases hq : effQty item.quantity < 1
          · rw [if_pos hq] at h
            exact absurd h (by simp)
          · rw [if_neg hq] at h
            cases hrec : processItems catalog rest with
            | error e => rw [hrec] at h; exact absurd h (by simp)
            | ok pair =>
                obtain ⟨snaps2, sub2⟩ := pair
                rw [hrec] at h
                simp only [Except.ok.injEq, Prod.mk.injEq] at h
                obtain ⟨hsnaps, hsub⟩ := h
                subst hsnaps
                subst hsub
                obtain ⟨ihsum, ihall⟩ := ih snaps2 sub2 hrec
                constructor
                · simp [ihsum]
                · exact List.Forall₂.cons ⟨pr, hf, rfl⟩ ihall

/-- C1 (amended): for every order created by `postOrderService`, the
subtotal is the sum over the created line items of unit price ×
effective quantity; each line item snapshots the live catalog price
and name of its requested product, with effective quantity
`quantity || 1` (a missing or zero quantity counts as 1); and the
total is the caller-supplied total when present and non-zero, else
`subTotal + shippingAmount + textAmount` with both defaulting to 0
when omitted (a supplied total of 0 is treated as omitted, since `||`
discards falsy values). -/
theorem postOrder_totals (catalog : List ProductInfo) (body : OrderBody)
    (cart : List ItemRequest) (o : CreatedOrder)
    (h : postOrder catalog body cart = Except.ok o) :
    o.subTotal = (o.orderItems.map (fun s => s.unitPrice * s.quantity)).sum ∧
    List.Forall₂ (fun (item : ItemRequest) (s : OrderItemSnap) =>
      ∃ pr, findProduct catalog item.product = some pr ∧
        s = { product := pr.id, quantity := effQty item.quantity
            , unitPrice := pr.price, nameSnapshot := pr.name })
      (itemsChosen body cart) o.orderItems ∧
    o.totalAmount = numFallback body.totalAmount
      (o.subTotal + body.shippingAmount.getD 0 + body.textAmount.getD 0) := by
  unfold postOrder at h
  by_cases hempty : (itemsChosen body cart).length = 0
  · rw [if_pos hempty] at h
    exact absurd h (by simp)
  · rw [if_neg hempty] at h
    cases hrun : processItems catalog (itemsChosen body cart) with
    | error e => rw [hrun] at h; exact absurd h (by simp)
    | ok pair =>
        obtain ⟨snaps, sub⟩ := pair
        rw [hrun] at h
        simp only [Except.ok.injEq] at h
        subst h
        obtain ⟨hsum, hall⟩ := processItems_ok catalog (itemsChosen body cart) snaps sub hrun
        exact ⟨hsum, hall, rfl⟩

/-- C1 counterexample: the 500-priced product requested at quantity 0
together with an explicit `totalAmount` of 0 and `shippingAmount` of
200.  The claim as stated predicts `subTotal = 500 · 0 = 0` and
`totalAmount = 0` (the caller supplied one); the service instead
coerces the quantity to 1 and discards the falsy caller total,
creating the order with `subTotal = 500` and `totalAmount = 700`. -/
theorem postOrder_falsy_counterexample :
    postOrder specCatalog falsyOrderBody [] =
      Except.ok
        { orderItems :=
            [ { product := 2, quantity := 1, unitPrice := 500, nameSnapshot := "Vase" } ]
        , subTotal := 500, totalAmount := 700 } ∧
    (500 : ℚ) ≠ 500 * 0 ∧ (700 : ℚ) ≠ 0 := by
  refine ⟨?_, by norm_num, by norm_num⟩
  norm_num [postOrder, itemsChosen, processItems, findProduct, effQty, numFallback,
    specCatalog, falsyOrderBody]

/-- Witness for C1 (amended): the specification's worked example — cart
`[(price 1000, qty 2), (price 500, qty 1)]`, shipping 200, text 0, no
explicit total — creates the order with `subTotal = 2500` and
`totalAmount = 2700`, and the theorem's sum formula holds on it. -/
theorem postOrder_totals_witness :
    postOrder specCatalog specBody specCart = Except.ok specOrder ∧
    specOrder.subTotal =
      (specOrder.orderItems.map (fun s => s.unitPrice * s.quantity)).sum ∧
    specOrder.subTotal = 2500 ∧
    specOrder.totalAmount = 2700 := by
  have hrun : postOrder specCatalog specBody specCart = Except.ok specOrder := by
    norm_num [postOrder, itemsChosen, processItems, findProduct, effQty, numFallback,
      specCatalog, specBody, specCart, specOrder]
  have h := postOrder_totals specCatalog specBody specCart specOrder hrun
  exact ⟨hrun, h.1, by simp [specOrder], by simp [specOrder]⟩

/-- Witness for C7: last month's paid revenue `10`, this month's `15`
gives a reported growth of `50`; an empty previous month gives `0`
regardless of this month. -/
theorem dashboard_growth_formula_witness :
    0 < dashboardTotalRevenue [paidOrder 10] ∧
    revenueGrowthReported [paidOrder 15] [paidOrder 10] = 50 ∧
    revenueGrowthReported [paidOrder 15] [] = 0 ∧
    ordersGrowthReported [paidOrder 15] [] = 0 := by
  have h1 := dashboard_growth_formula [paidOrder 15] [paidOrder 10]
  have h2 := dashboard_growth_formula [paidOrder 15] ([] : List AnOrder)
  refine ⟨by with_unfolding_all decide, ?_, ?_, ?_⟩
  · rw [h1.1 (by with_unfolding_all decide)]
    with_unfolding_all decide
  · exact h2.2.1 (by with_unfolding_all decide)
  · exact h2.2.2.2 rfl

end Ararat
